import Mathlib

/-!
Shallow embedding of `src/main.py` of the `lab_pcs` repository: a script
that searches pkgs.org for a package, solves an image-grid captcha with a
YOLO classifier, extracts a three-level catalog of candidate packages and
lets the user pick a download link interactively.

Pure Lean models of: `validate_proxy`, `has_object`, `solve_captcha`,
`get_candidates`, `select_from_list`, `select_candidate_prompt` and the
control flow of `main`.  External collaborators (the YOLO model, OpenCV
image decoding, the selenium session) are modelled as explicit
parameters; Python runtime exceptions are modelled with an explicit
error type and `Except`.  Side effects that carry no data (prints,
sleeps, clicks on the live page) are dropped; clicks performed by the
captcha solver are instead returned as a list so their number and order
are observable.
-/

/-- Python runtime exceptions raised by the embedded code paths. -/
inductive PyErr : Type
  | valueError (msg : String)
  | binasciiError (msg : String)
  | indexError
  | keyError (key : String)
  | attributeError (msg : String)
  | noSuchElement
  | eofError
  deriving DecidableEq, Repr

instance {ε α : Type} [DecidableEq ε] [DecidableEq α] : DecidableEq (Except ε α) :=
  fun x y =>
    match x, y with
    | Except.error a, Except.error b => decidable_of_iff (a = b) (by simp)
    | Except.error _, Except.ok _ => Decidable.isFalse (by simp)
    | Except.ok _, Except.error _ => Decidable.isFalse (by simp)
    | Except.ok a, Except.ok b => decidable_of_iff (a = b) (by simp)

/-- Value of one base64-alphabet character (model of the table used by
Python `base64`). -/
def b64charVal (c : Char) : Option Nat :=
  if c.isUpper then Option.some (c.toNat - 65)
  else if c.isLower then Option.some (c.toNat - 97 + 26)
  else if c.isDigit then Option.some (c.toNat - 48 + 52)
  else if c = '+' then Option.some 62
  else if c = '/' then Option.some 63
  else Option.none

/-- Turn a run of 6-bit base64 digits into bytes (4 digits to 3 bytes,
a final group of 3 digits to 2 bytes, of 2 digits to 1 byte). -/
def b64groups : List Nat → List Nat
  | a :: b :: c :: d :: rest =>
    (a * 4 + b / 16) :: ((b % 16) * 16 + c / 4) :: ((c % 4) * 64 + d) :: b64groups rest
  | [a, b] => [a * 4 + b / 16]
  | [a, b, c] => [a * 4 + b / 16, (b % 16) * 16 + c / 4]
  | _ => []

/-- Model of Python `base64.b64decode` with `validate=False` (the call
made by `has_object`): characters outside the alphabet are discarded,
then the number of data characters must fit the padding, otherwise
`binascii.Error` is raised — a decode failure is an exception, not a
soft result. -/
def b64decode (s : String) : Except String (List Nat) :=
  let filtered := s.data.filter (fun c => (b64charVal c).isSome || c == '=')
  let dataChars := (filtered.takeWhile (fun c => c != '=')).filterMap b64charVal
  let pads := (filtered.dropWhile (fun c => c != '=')).length
  if dataChars.length % 4 == 0 && pads == 0 then Except.ok (b64groups dataChars)
  else if dataChars.length % 4 == 2 && pads == 2 then Except.ok (b64groups dataChars)
  else if dataChars.length % 4 == 3 && pads == 1 then Except.ok (b64groups dataChars)
  else Except.error "Invalid base64"

/-- The fixed recognized-class enumeration `CLASS_NAMES` from the source. -/
def CLASS_NAMES : List String :=
  ["bird", "butterfly", "cat", "dinosaur", "dog", "fish", "horse"]

/-- External collaborators of `has_object`: `imdecode` models
`cv2.imdecode` (returns `none` on failure, it does not raise), `detect`
models the YOLO `model(img, conf=conf)` call, returning for each result
the list of detected class ids (`r.boxes.cls`, empty when `r.boxes` is
`None`).  `Img` is the opaque raster type. -/
structure YoloEnv (Img : Type) where
  imdecode : List Nat → Option Img
  detect : Option Img → Rat → List (List Int)

/-- The classification step of `has_object` after a successful base64
decode: true iff any result contains a detection of the requested class
id. -/
def detectMatch {Img : Type} (env : YoloEnv Img) (bs : List Nat)
    (objectName : String) (conf : Rat) : Bool :=
  let img := env.imdecode bs
  let classId := CLASS_NAMES.indexOf objectName
  (env.detect img conf).any (fun r => r.any (fun cls => cls == (classId : Int)))

/-- Model of `has_object(image, object_name, conf)`: raises `ValueError`
for a class name outside `CLASS_NAMES` (checked before anything else),
then base64-decodes the payload (`binascii.Error` propagates), then
queries the classifier.  There is no exception handling in the source
function. -/
def has_object {Img : Type} (env : YoloEnv Img) (image : String)
    (objectName : String) (conf : Rat) : Except PyErr Bool :=
  if objectName ∉ CLASS_NAMES then
    Except.error (PyErr.valueError ("Unknown object name: " ++ objectName))
  else
    match b64decode image with
    | Except.error msg => Except.error (PyErr.binasciiError msg)
    | Except.ok bs => Except.ok (detectMatch env bs objectName conf)

/-- The default confidence threshold `conf=0.5` of `has_object`. -/
def defaultConf : Rat := (1 : Rat) / 2

/-- Model of Python `str.split(",")` over a character list. -/
def splitCommaAux : List Char → List Char → List (List Char)
  | [], acc => [acc.reverse]
  | c :: rest, acc =>
    if c = ',' then acc.reverse :: splitCommaAux rest []
    else splitCommaAux rest (c :: acc)

/-- Per-cell work of `solve_captcha`: take the cell image source
attribute, extract the payload after the first comma
(`src.split(",")[1]`, `IndexError` when there is no comma) and query
`has_object` with the default confidence.  Errors propagate: the loop
body has no try/except. -/
def cellResult {Img : Type} (env : YoloEnv Img) (expected : String)
    (src : String) : Except PyErr Bool :=
  match (splitCommaAux src.data []).get? 1 with
  | Option.none => Except.error PyErr.indexError
  | Option.some payload => has_object env (String.mk payload) expected defaultConf

/-- Inner cell loop of `solve_captcha` over one table row: on a match
the cell is clicked and the counter incremented; when the counter
reaches 3 the whole function returns at once.  The returned triple is
(clicked cells in order, final counter, whether the early return with 3
clicks fired). -/
def solveRowCells {Img : Type} (env : YoloEnv Img) (expected : String) :
    List String → Nat → Except PyErr (List String × Nat × Bool)
  | [], counter => Except.ok ([], counter, false)
  | src :: rest, counter =>
    match cellResult env expected src with
    | Except.error err => Except.error err
    | Except.ok b =>
      if b then
        if counter + 1 = 3 then Except.ok ([src], counter + 1, true)
        else
          match solveRowCells env expected rest (counter + 1) with
          | Except.error err => Except.error err
          | Except.ok (clicks, c2, ret) => Except.ok (src :: clicks, c2, ret)
      else solveRowCells env expected rest counter

/-- Outer row loop of `solve_captcha`: rows are scanned in order, the
counter persists across rows, and the early return aborts the scan. -/
def solveRows {Img : Type} (env : YoloEnv Img) (expected : String) :
    List (List String) → Nat → Except PyErr (List String)
  | [], _ => Except.ok []
  | row :: rest, counter =>
    match solveRowCells env expected row counter with
    | Except.error err => Except.error err
    | Except.ok (clicks, c2, ret) =>
      if ret then Except.ok clicks
      else
        match solveRows env expected rest c2 with
        | Except.error err => Except.error err
        | Except.ok more => Except.ok (clicks ++ more)

/-- Model of `solve_captcha(driver)` for one episode: `expected` is the
target label read from the badge, `grid` the `src` attributes of the
cell images in raster order (rows of cells as laid out in the table),
and the result the list of clicked cells.  The counter starts at 0. -/
def solve_captcha {Img : Type} (env : YoloEnv Img) (expected : String)
    (grid : List (List String)) : Except PyErr (List String) :=
  solveRows env expected grid 0

/-- Predicate used to state properties of the scan: the cell classifies
successfully as a match. -/
def fMatch {Img : Type} (env : YoloEnv Img) (expected : String) (src : String) : Bool :=
  decide (cellResult env expected src = Except.ok true)

/-- Character class `[a-zA-Z0-9.\-]` of the proxy regex. -/
def hostChar (c : Char) : Bool :=
  c.isAlpha || c.isDigit || c == '.' || c == '-'

/-- Matches the part of the proxy regex after `http://`: a nonempty run
of host characters, then a colon, then one to five digits, then end of
input.  The regex group `(:[0-9]{1,5})` has no `?`, so the port part is
mandatory. -/
def matchHostPort (cs : List Char) : Bool :=
  let host := cs.takeWhile hostChar
  match cs.drop host.length with
  | ':' :: ds =>
    !host.isEmpty && !ds.isEmpty && decide (ds.length ≤ 5) && ds.all Char.isDigit
  | _ => false

/-- Python `$` in `re.match` also accepts a single trailing newline;
drop it before matching. -/
def chopNewline (cs : List Char) : List Char :=
  match cs.getLast? with
  | Option.some c => if c = '\n' then cs.dropLast else cs
  | Option.none => cs

/-- Model of `validate_proxy(proxy)`: Python
`re.match(r"^http:\/\/[a-zA-Z0-9.\-]+(:[0-9]{1,5})$", proxy)` turned
into a boolean. -/
def validate_proxy (s : String) : Bool :=
  match chopNewline s.data with
  | 'h' :: 't' :: 't' :: 'p' :: ':' :: '/' :: '/' :: rest => matchHostPort rest
  | _ => false

/-- Model of Python `str.strip()` (used on titles, row texts and
descriptions). -/
def pyStrip (s : String) : String :=
  String.mk (((s.data.dropWhile Char.isWhitespace).reverse.dropWhile Char.isWhitespace).reverse)

/-- One `<td>` cell of a data row: the href values of its `<a>` children
in document order, and its text. -/
structure Td : Type where
  anchors : List String
  text : String
  deriving DecidableEq, Repr

/-- One `<tr>` of a section: its `class` attribute value, its text and
its `<td>` children.  `class == "table-active"` marks a header row. -/
structure Row : Type where
  cls : String
  text : String
  tds : List Td
  deriving DecidableEq, Repr

/-- One top-level results card: the `card-title` text and the `<tr>`
sequence.  The activation click for sections with index > 0 is a pure
page side effect and carries no data. -/
structure Section : Type where
  title : String
  rows : List Row
  deriving DecidableEq, Repr

/-- One parsed candidate: `{"link": ..., "description": ...}`. -/
structure Entry : Type where
  link : String
  description : String
  deriving DecidableEq, Repr

/-- The per-distribution dict `candidate`: insertion-ordered subsection
name to entry list. -/
abbrev Subsections : Type := List (String × List Entry)

/-- The whole `result` dict: insertion-ordered distribution name to
subsections. -/
abbrev Catalog : Type := List (String × Subsections)

/-- Python dict assignment `d[k] = v`: replaces the value in place when
the key exists (keeping its position), appends otherwise. -/
def dictSet {V : Type} : List (String × V) → String → V → List (String × V)
  | [], k, v => [(k, v)]
  | (k0, v0) :: rest, k, v =>
    if k0 = k then (k, v) :: rest else (k0, v0) :: dictSet rest k v

/-- Python dict lookup `d[k]` as an option (`none` models `KeyError`). -/
def dictGet {V : Type} : List (String × V) → String → Option V
  | [], _ => Option.none
  | (k0, v0) :: rest, k => if k0 = k then Option.some v0 else dictGet rest k

/-- One iteration of the row loop in `get_candidates`: a header row
(`class == "table-active"`) opens a new empty list under its stripped
text; any other row is a data row appended under the current subsection
key.  `candidate[subsection_name]` is evaluated first, so a data row
before any header raises `KeyError("")`; a data row without two cells
raises `IndexError`, a first cell without a link raises
`NoSuchElementException`. -/
def parseRow (cand : Subsections) (sub : String) (row : Row) :
    Except PyErr (Subsections × String) :=
  if row.cls = "table-active" then
    Except.ok (dictSet cand (pyStrip row.text) [], pyStrip row.text)
  else
    match dictGet cand sub with
    | Option.none => Except.error (PyErr.keyError sub)
    | Option.some entries =>
      match row.tds.get? 0 with
      | Option.none => Except.error PyErr.indexError
      | Option.some td0 =>
        match td0.anchors.head? with
        | Option.none => Except.error PyErr.noSuchElement
        | Option.some href =>
          match row.tds.get? 1 with
          | Option.none => Except.error PyErr.indexError
          | Option.some td1 =>
            Except.ok
              (dictSet cand sub
                (entries ++ [{ link := href, description := pyStrip td1.text }]), sub)

/-- The row loop of `get_candidates`, threading the `candidate` dict and
the current `subsection_name` (initially `""`). -/
def parseRows (cand : Subsections) (sub : String) :
    List Row → Except PyErr Subsections
  | [] => Except.ok cand
  | row :: rest =>
    match parseRow cand sub row with
    | Except.error e => Except.error e
    | Except.ok (cand2, sub2) => parseRows cand2 sub2 rest

/-- Parse one section body (the part of the loop body inside `try`). -/
def parseSection (s : Section) : Except PyErr Subsections :=
  parseRows [] "" s.rows

/-- One iteration of the section loop: the whole body runs under
`try/except Exception: continue`, so a failing section leaves `result`
untouched, while a successful one assigns
`result[distro_name] = candidate`. -/
def sectionStep (result : Catalog) (s : Section) : Catalog :=
  match parseSection s with
  | Except.ok cand => dictSet result (pyStrip s.title) cand
  | Except.error _ => result

/-- Model of `get_candidates`: with no sections at all it prints the
no-candidates message and returns `None` (modelled as `Option.none`),
otherwise it folds the section loop from the empty dict. -/
def get_candidates (sections : List Section) : Option Catalog :=
  if sections.isEmpty then Option.none
  else Option.some (sections.foldl sectionStep [])

/-- Dynamically-typed Python values flowing into
`select_candidate_prompt` (which mixes dict and list operations). -/
inductive PyVal : Type
  | pynone
  | str (s : String)
  | list (xs : List PyVal)
  | dict (xs : List (String × PyVal))

/-- One entry dict as a Python value. -/
def entryToPy (e : Entry) : PyVal :=
  PyVal.dict [("link", PyVal.str e.link), ("description", PyVal.str e.description)]

/-- A candidate dict as a Python value: subsection name to list of entry
dicts. -/
def subsToPy (subs : Subsections) : PyVal :=
  PyVal.dict (subs.map (fun p => (p.1, PyVal.list (p.2.map entryToPy))))

/-- A catalog as the Python value produced by `get_candidates`. -/
def catalogToPy (c : Catalog) : PyVal :=
  PyVal.dict (c.map (fun p => (p.1, subsToPy p.2)))

/-- The value `main` passes to `select_candidate_prompt`: the catalog,
or Python `None` when `get_candidates` found no sections. -/
def optCatalogToPy : Option Catalog → PyVal
  | Option.none => PyVal.pynone
  | Option.some c => catalogToPy c

/-- Python `list(x.keys())`: only dicts have `.keys()`; on a list, a
string or `None` an `AttributeError` is raised. -/
def pyKeys : PyVal → Except PyErr (List String)
  | PyVal.dict xs => Except.ok (xs.map Prod.fst)
  | PyVal.list _ => Except.error (PyErr.attributeError "list object has no attribute keys")
  | PyVal.pynone => Except.error (PyErr.attributeError "NoneType object has no attribute keys")
  | PyVal.str _ => Except.error (PyErr.attributeError "str object has no attribute keys")

/-- Python `d[k]` on a dict value (`KeyError` when absent; the callers
below only subscript dicts whose keys they just listed). -/
def pyGetItem : PyVal → String → Except PyErr PyVal
  | PyVal.dict xs, k =>
    match dictGet xs k with
    | Option.some v => Except.ok v
    | Option.none => Except.error (PyErr.keyError k)
  | _, _ => Except.error (PyErr.attributeError "value is not subscriptable by string")

/-- Python list indexing `xs[i]` with negative-index wrap-around:
`xs[-1]` is the last element; out of range raises `IndexError`. -/
def pyListIdx (xs : List String) (i : Int) : Except PyErr String :=
  let j := if i < 0 then i + (xs.length : Int) else i
  if j < 0 then Except.error PyErr.indexError
  else
    match xs.get? j.toNat with
    | Option.some x => Except.ok x
    | Option.none => Except.error PyErr.indexError

/-- Python `str.isdigit()` restricted to ASCII digits (the only inputs
the prompt meets). -/
def isDigits (s : String) : Bool :=
  !s.isEmpty && s.data.all Char.isDigit

/-- Python `int(...)` on a digit string. -/
def strToNat (s : String) : Nat :=
  s.data.foldl (fun n c => n * 10 + (c.toNat - 48)) 0

/-- Model of `select_from_list(data)`: consume one line of input per
iteration; a digit choice `c` with `0 <= c <= len(data)` returns `-1`
for `c = 0` and the 0-based index `c - 1` otherwise; anything else
prints a complaint and loops.  Exhausting the input stream models
`input()` raising `EOFError`. -/
def select_from_list (data : List String) :
    List String → Except PyErr (Int × List String)
  | [] => Except.error PyErr.eofError
  | choice :: rest =>
    if isDigits choice then
      if strToNat choice ≤ data.length then
        if strToNat choice = 0 then Except.ok (-1, rest)
        else Except.ok ((strToNat choice : Int) - 1, rest)
      else select_from_list data rest
    else select_from_list data rest

/-- Model of `select_candidate_prompt(candidates)`: four successive
`select_from_list` interactions (distro, version, package, link), each
list produced by `list(... .keys())` and each chosen index used directly
as a Python list index (so the `-1` exit sentinel indexes the last
element instead of aborting).  The input stream is threaded through. -/
def select_candidate_prompt (candidates : PyVal) (inputs : List String) :
    Except PyErr String := do
  let distros ← pyKeys candidates
  let (indDistro, inputs1) ← select_from_list distros inputs
  let distroName ← pyListIdx distros indDistro
  let distroVal ← pyGetItem candidates distroName
  let versions ← pyKeys distroVal
  let (indVersion, inputs2) ← select_from_list versions inputs1
  let versionName ← pyListIdx versions indVersion
  let versionVal ← pyGetItem distroVal versionName
  let packages ← pyKeys versionVal
  let (indPackage, inputs3) ← select_from_list packages inputs2
  let pkgName ← pyListIdx packages indPackage
  let pkgVal ← pyGetItem versionVal pkgName
  let links ← pyKeys pkgVal
  let (indLink, _) ← select_from_list links inputs3
  pyListIdx links indLink

/-- Outcome of one run of `main`. -/
inductive RunResult : Type
  | proxyError (msg : String)
  | crashed (e : PyErr)
  | finished (link : String)
  deriving DecidableEq, Repr

/-- Process exit status for each outcome: `main` plain-returns on an
invalid proxy (so the interpreter exits 0), an uncaught exception exits
1, a normal finish exits 0. -/
def exitCode : RunResult → Nat
  | RunResult.proxyError _ => 0
  | RunResult.crashed _ => 1
  | RunResult.finished _ => 0

/-- The part of `main` after the proxy check: extract candidates, dump
them to disk (no observable data flow) and run the selector.  There is
no `None` check between the two calls. -/
def runPipeline (sections : List Section) (inputs : List String) : RunResult :=
  match select_candidate_prompt (optCatalogToPy (get_candidates sections)) inputs with
  | Except.ok link => RunResult.finished link
  | Except.error e => RunResult.crashed e

/-- Model of `main(args)`: an invalid proxy string prints
`Invalid proxy format: ...` and returns before the driver is built;
otherwise the pipeline runs. -/
def run_main (proxy : Option String) (sections : List Section)
    (inputs : List String) : RunResult :=
  match proxy with
  | Option.some p =>
    if validate_proxy p then runPipeline sections inputs
    else RunResult.proxyError ("Invalid proxy format: " ++ p ++ ".")
  | Option.none => runPipeline sections inputs

/-- Classifier double that never detects anything. -/
def yoloStub : YoloEnv Unit :=
  { imdecode := fun _ => Option.some (), detect := fun _ _ => [] }

/-- Classifier double that always reports one detection of class id 2
("cat"). -/
def yoloCat : YoloEnv Unit :=
  { imdecode := fun _ => Option.some (), detect := fun _ _ => [[2]] }

/-- After `d[k] = v`, looking up `k` yields exactly `v`. -/
theorem dictGet_dictSet_self {V : Type} (d : List (String × V)) (k : String) (v : V) :
    dictGet (dictSet d k v) k = Option.some v := by
  induction d with
  | nil => simp [dictSet, dictGet]
  | cons p rest ih =>
    obtain ⟨k0, v0⟩ := p
    by_cases h : k0 = k
    · simp [dictSet, dictGet, h]
    · simp [dictSet, dictGet, h, ih]

/-- C4: a section whose first row is a data row (no header seen yet)
contributes zero entries to the catalog — its parse raises
`KeyError("")`, the per-section handler drops it — and every other
section is still processed, so the result is the fold over the
remaining sections. -/
theorem data_row_before_header_section_skipped
    (pre suf : List Section) (bad : Section) (r : Row) (rest : List Row)
    (hrows : bad.rows = r :: rest) (hcls : r.cls ≠ "table-active") :
    get_candidates (pre ++ bad :: suf) =
      Option.some ((pre ++ suf).foldl sectionStep []) := by
  have hbad : parseSection bad = Except.error (PyErr.keyError "") := by
    simp [parseSection, hrows, parseRows, parseRow, hcls, dictGet]
  have hstep : ∀ acc, sectionStep acc bad = acc := by
    intro acc
    simp [sectionStep, hbad]
  rw [get_candidates, if_neg (by simp)]
  simp only [List.foldl_append, List.foldl_cons, hstep]

/-- C4 witness: sections `[bad, good]` where `bad` starts with an
out-of-order data row yield a catalog containing only `good`'s entries. -/
theorem data_row_before_header_section_skipped_inst :
    get_candidates
      [⟨"Bad", [⟨"", "stray", [⟨["http://z"], ""⟩, ⟨[], "lost"⟩]⟩]⟩,
       ⟨" Good ", [⟨"table-active", " 1.0 ", []⟩,
                   ⟨"", "", [⟨["http://g"], ""⟩, ⟨[], " vim package "⟩]⟩]⟩] =
      Option.some [("Good", [("1.0", [⟨"http://g", "vim package"⟩])])] := by
  have h := data_row_before_header_section_skipped []
    [⟨" Good ", [⟨"table-active", " 1.0 ", []⟩,
                 ⟨"", "", [⟨["http://g"], ""⟩, ⟨[], " vim package "⟩]⟩]⟩]
    ⟨"Bad", [⟨"", "stray", [⟨["http://z"], ""⟩, ⟨[], "lost"⟩]⟩]⟩
    ⟨"", "stray", [⟨["http://z"], ""⟩, ⟨[], "lost"⟩]⟩ [] rfl (by decide)
  exact h.trans (by rfl)

/-- C9: when two sections carry the same (stripped) distribution name,
the dict assignment for the repeated key replaces the earlier section's
subsections: in the final catalog the key maps exactly to the later
section's parse, so the earlier entries are lost. -/
theorem duplicate_distro_last_wins
    (pre : List Section) (s1 : Section) (mid : List Section) (s2 : Section)
    (c2 : Subsections) (cat : Catalog)
    (_hdup : pyStrip s1.title = pyStrip s2.title)
    (hok : parseSection s2 = Except.ok c2)
    (hcat : get_candidates ((pre ++ s1 :: mid) ++ [s2]) = Option.some cat) :
    dictGet cat (pyStrip s2.title) = Option.some c2 := by
  rw [get_candidates, if_neg (by simp)] at hcat
  injection hcat with hcat
  subst hcat
  rw [List.foldl_append, List.foldl_cons, List.foldl_nil]
  have hstep : sectionStep ((pre ++ s1 :: mid).foldl sectionStep []) s2 =
      dictSet ((pre ++ s1 :: mid).foldl sectionStep []) (pyStrip s2.title) c2 := by
    simp [sectionStep, hok]
  rw [hstep, dictGet_dictSet_self]

/-- C9 witness: two sections both named `Debian`; the catalog maps
`Debian` to the second section's subsections only. -/
theorem duplicate_distro_last_wins_inst :
    dictGet ([("Debian", [("new", [⟨"http://2", "two"⟩])])] : Catalog) "Debian" =
      Option.some ([("new", [⟨"http://2", "two"⟩])] : Subsections) := by
  exact duplicate_distro_last_wins []
    (⟨"Debian", [⟨"table-active", "old", []⟩,
                 ⟨"", "", [⟨["http://1"], ""⟩, ⟨[], "one"⟩]⟩]⟩ : Section) []
    (⟨" Debian ", [⟨"table-active", "new", []⟩,
                   ⟨"", "", [⟨["http://2"], ""⟩, ⟨[], "two"⟩]⟩]⟩ : Section)
    [("new", [⟨"http://2", "two"⟩])]
    [("Debian", [("new", [⟨"http://2", "two"⟩])])]
    rfl rfl rfl

/-- C10: `select_from_list` only ever returns `-1` (exit) or a 0-based
index inside the list, and any invalid input line (non-digits, or a
number above the menu size) is consumed and the prompt repeats instead
of returning. -/
theorem select_from_list_result_range :
    (∀ (data inputs : List String) (r : Int) (rest : List String),
       select_from_list data inputs = Except.ok (r, rest) →
       r = -1 ∨ (0 ≤ r ∧ r < (data.length : Int))) ∧
    (∀ (data : List String) (bad : String) (inputs : List String),
       ¬(isDigits bad = true ∧ strToNat bad ≤ data.length) →
       select_from_list data (bad :: inputs) = select_from_list data inputs) := by
  constructor
  · intro data inputs
    induction inputs with
    | nil =>
      intro r rest h
      simp [select_from_list] at h
    | cons choice rest2 ih =>
      intro r rest h
      simp only [select_from_list] at h
      by_cases hd : isDigits choice = true
      · rw [if_pos hd] at h
        by_cases hle : strToNat choice ≤ data.length
        · rw [if_pos hle] at h
          by_cases h0 : strToNat choice = 0
          · rw [if_pos h0] at h
            simp only [Except.ok.injEq, Prod.mk.injEq] at h
            exact Or.inl h.1.symm
          · rw [if_neg h0] at h
            simp only [Except.ok.injEq, Prod.mk.injEq] at h
            obtain ⟨h1, _⟩ := h
            right
            omega
        · rw [if_neg hle] at h
          exact ih r rest h
      · rw [if_neg hd] at h
        exact ih r rest h
  · intro data bad inputs h
    by_cases hd : isDigits bad = true
    · have hle : ¬(strToNat bad ≤ data.length) := fun hle => h ⟨hd, hle⟩
      simp only [select_from_list]
      rw [if_pos hd, if_neg hle]
    · simp only [select_from_list]
      rw [if_neg hd]

/-- C10 witness: on the two-element menu the inputs `5`, `x` are
re-prompted and `2` returns index 1, which is in range; and an invalid
line is simply dropped from the stream. -/
theorem select_from_list_result_range_inst :
    ((1 : Int) = -1 ∨ (0 ≤ (1 : Int) ∧ (1 : Int) < ((["a", "b"] : List String).length : Int))) ∧
    select_from_list ["a"] ["zz", "1"] = select_from_list ["a"] ["1"] := by
  constructor
  · exact select_from_list_result_range.1 ["a", "b"] ["5", "x", "2"] 1 [] (by decide)
  · exact select_from_list_result_range.2 ["a"] "zz" ["1"] (by decide)

/-- C1: entering `0` at the first level does not cancel.
`select_from_list` hands back the `-1` exit sentinel, but
`select_candidate_prompt` never tests it: used as a Python index, `-1`
selects the LAST distribution and the drill-down continues — here it
consumes the next input line at the version level and then crashes with
`AttributeError` at the package level (the entry list has no `.keys()`),
instead of yielding any cancelled outcome.  The first conjunct shows the
silent fallback to the last distribution. -/
theorem select_zero_is_not_cancel :
    pyListIdx ["AlmaLinux", "Debian"] (-1) = Except.ok "Debian" ∧
    select_candidate_prompt
      (catalogToPy [("AlmaLinux", [("AlmaLinux 9", [⟨"http://a", "p1"⟩])]),
                    ("Debian", [("Debian 12", [⟨"http://b", "p2"⟩])])])
      ["0", "1"] =
      Except.error (PyErr.attributeError "list object has no attribute keys") := by
  exact ⟨rfl, rfl⟩

/-- C2: on a catalog shaped exactly as `get_candidates` produces it —
one distribution, one subsection, exactly one entry — the selector does
not return the entry's link without prompting: it prompts at every
level (consuming both input lines) and then raises `AttributeError`
when it calls `.keys()` on the entry list, because it expects a fourth
dict level that the extractor never builds. -/
theorem single_entry_subsection_crashes :
    select_candidate_prompt
      (catalogToPy [("Debian", [("Debian 12", [⟨"http://x/vim.deb", "vim pkg"⟩])])])
      ["1", "1"] =
      Except.error (PyErr.attributeError "list object has no attribute keys") := by
  exact rfl

/-- C6: with zero sections `get_candidates` does return `None`, which is
distinct from an empty catalog — but the run does not stop normally:
`main` passes `None` straight into `select_candidate_prompt`, which
raises `AttributeError` on `None.keys()`, so the run crashes. -/
theorem zero_sections_crashes_run :
    get_candidates [] = Option.none ∧
    (Option.none : Option Catalog) ≠ Option.some [] ∧
    run_main Option.none [] [] =
      RunResult.crashed (PyErr.attributeError "NoneType object has no attribute keys") := by
  refine ⟨rfl, ?_, rfl⟩
  intro h
  cases h

/-- C5 counterexample: a grid whose only cell has an undecodable base64
payload makes `solve_captcha` raise (`binascii.Error` propagating out of
`has_object`), not complete with zero clicks — nothing swallows the
per-cell failure. -/
theorem decode_failure_not_swallowed :
    solve_captcha yoloStub "cat" [["data:image/png;base64,a"]] =
      Except.error (PyErr.binasciiError "Invalid base64") := by
  exact rfl

/-- C5 amended: a cell whose payload fails base64 decoding aborts the
whole episode — the decode error propagates out of `has_object` and
`solve_captcha` (which have no per-cell handling), it is not treated as
a non-match. -/
theorem decode_failure_aborts_episode {Img : Type} (env : YoloEnv Img)
    (expected : String) (src : String) (payload : List Char) (msg : String)
    (cs : List String) (rows : List (List String))
    (hexp : expected ∈ CLASS_NAMES)
    (hsplit : (splitCommaAux src.data []).get? 1 = Option.some payload)
    (hdec : b64decode (String.mk payload) = Except.error msg) :
    solve_captcha env expected ((src :: cs) :: rows) =
      Except.error (PyErr.binasciiError msg) := by
  have hcell : cellResult env expected src = Except.error (PyErr.binasciiError msg) := by
    have hsplit2 : (splitCommaAux src.data [])[1]? = Option.some payload := by
      simpa using hsplit
    simp [cellResult, hsplit2, has_object, hexp, hdec]
  simp only [solve_captcha, solveRows, solveRowCells, hcell]

/-- C5 amended witness: the first cell of the grid fails to decode and
the episode ends with that error. -/
theorem decode_failure_aborts_episode_inst :
    solve_captcha yoloCat "dog" [["img,b", "img,AAAA"]] =
      Except.error (PyErr.binasciiError "Invalid base64") := by
  exact decode_failure_aborts_episode yoloCat "dog" "img,b" ['b'] "Invalid base64"
    ["img,AAAA"] [] (by decide) (by decide) (by decide)

/-- C7 counterexample: for the recognized class name `cat` and the image
payload `"a"` (invalid base64), `has_object` raises instead of
returning a boolean, so "for recognized class names it returns a
boolean" fails as a universal statement over images. -/
theorem recognized_class_can_raise :
    has_object yoloStub "a" "cat" defaultConf =
      Except.error (PyErr.binasciiError "Invalid base64") := by
  exact rfl

/-- C7 amended: `has_object` fails fast with `ValueError` for every
class name outside `CLASS_NAMES`, before touching the image; for a
recognized class name it returns a boolean whenever the payload
base64-decodes (and propagates the decode error otherwise, see the
counterexample). -/
theorem has_object_fail_fast :
    (∀ (Img : Type) (env : YoloEnv Img) (image objectName : String) (conf : Rat),
       objectName ∉ CLASS_NAMES →
       has_object env image objectName conf =
         Except.error (PyErr.valueError ("Unknown object name: " ++ objectName))) ∧
    (∀ (Img : Type) (env : YoloEnv Img) (image objectName : String) (conf : Rat)
       (bs : List Nat),
       objectName ∈ CLASS_NAMES → b64decode image = Except.ok bs →
       has_object env image objectName conf =
         Except.ok (detectMatch env bs objectName conf)) := by
  constructor
  · intro Img env image objectName conf h
    unfold has_object
    rw [if_pos h]
  · intro Img env image objectName conf bs hmem hdec
    unfold has_object
    rw [if_neg (not_not_intro hmem), hdec]

/-- C7 amended witness: the unrecognized class `zebra` raises even on a
perfectly decodable image, and the recognized class `cat` on a decodable
image returns a boolean. -/
theorem has_object_fail_fast_inst :
    has_object yoloStub "QUFBQQ==" "zebra" defaultConf =
      Except.error (PyErr.valueError ("Unknown object name: " ++ "zebra")) ∧
    has_object yoloStub "" "cat" defaultConf = Except.ok false := by
  constructor
  · exact has_object_fail_fast.1 Unit yoloStub "QUFBQQ==" "zebra" defaultConf (by decide)
  · exact (has_object_fail_fast.2 Unit yoloStub "" "cat" defaultConf [] (by decide) rfl).trans rfl

/-- C8 counterexample: a proxy without a port is rejected (the regex
group `(:[0-9]{1,5})` is not optional), while the same host with a port
is accepted; and an invalid proxy makes `main` return the printed
message with process exit status 0, not non-zero. -/
theorem proxy_port_mandatory_cex :
    validate_proxy "http://127.0.0.1" = false ∧
    validate_proxy "http://127.0.0.1:8080" = true ∧
    run_main (Option.some "http://127.0.0.1") [] [] =
      RunResult.proxyError "Invalid proxy format: http://127.0.0.1." ∧
    exitCode (run_main (Option.some "http://127.0.0.1") [] []) = 0 := by
  exact ⟨rfl, rfl, rfl, rfl⟩

/-- Cell loop characterization: starting below the budget, with every
cell classifying cleanly, the loop clicks exactly the first
`3 - c` matching cells of the row, adds the number of clicks to the
counter, and fires the early return iff the row holds enough matches to
fill the budget. -/
theorem solveRowCells_spec {Img : Type} (env : YoloEnv Img) (expected : String) :
    ∀ (row : List String) (c : Nat), c < 3 →
    (∀ src ∈ row, ∃ b, cellResult env expected src = Except.ok b) →
    solveRowCells env expected row c =
      Except.ok ((row.filter (fMatch env expected)).take (3 - c),
        c + min (row.filter (fMatch env expected)).length (3 - c),
        decide (3 - c ≤ (row.filter (fMatch env expected)).length)) := by
  intro row
  induction row with
  | nil =>
    intro c hc _
    simp [solveRowCells]
    omega
  | cons src rest ih =>
    intro c hc hok
    obtain ⟨b, hb⟩ := hok src (by simp)
    have hrest : ∀ s ∈ rest, ∃ b2, cellResult env expected s = Except.ok b2 :=
      fun s hs => hok s (by simp [hs])
    cases b with
    | true =>
      have hf : fMatch env expected src = true := by simp [fMatch, hb]
      by_cases h3 : c + 1 = 3
      · have hc2 : c = 2 := by omega
        subst hc2
        simp [solveRowCells, hb, hf, List.filter_cons]
      · have hlt : c + 1 < 3 := by omega
        have h32 : 3 - c = (3 - (c + 1)) + 1 := by omega
        simp only [solveRowCells, hb, if_pos rfl, if_neg h3, ih (c + 1) hlt hrest,
          List.filter_cons, hf, if_true]
        rw [h32, List.take_succ_cons]
        simp only [Except.ok.injEq, Prod.mk.injEq, List.cons.injEq, true_and,
          List.length_cons]
        refine ⟨by omega, ?_⟩
        rw [decide_eq_decide]
        omega
    | false =>
      have hf : fMatch env expected src = false := by simp [fMatch, hb]
      simp only [solveRowCells, hb, Bool.false_eq_true, if_false, List.filter_cons, hf]
      exact ih c hc hrest

/-- Row loop characterization: with every cell classifying cleanly, the
scan clicks exactly the first `3 - c` matching cells of the whole grid
in raster order. -/
theorem solveRows_spec {Img : Type} (env : YoloEnv Img) (expected : String) :
    ∀ (rows : List (List String)) (c : Nat), c < 3 →
    (∀ src ∈ rows.flatten, ∃ b, cellResult env expected src = Except.ok b) →
    solveRows env expected rows c =
      Except.ok ((rows.flatten.filter (fMatch env expected)).take (3 - c)) := by
  intro rows
  induction rows with
  | nil =>
    intro c hc _
    simp [solveRows]
  | cons row rest ih =>
    intro c hc hok
    have hrow : ∀ s ∈ row, ∃ b, cellResult env expected s = Except.ok b :=
      fun s hs => hok s (by simp [hs])
    have hrest : ∀ s ∈ rest.flatten, ∃ b, cellResult env expected s = Except.ok b :=
      fun s hs => hok s (by simp [hs])
    simp only [solveRows, solveRowCells_spec env expected row c hc hrow]
    by_cases hle : 3 - c ≤ (row.filter (fMatch env expected)).length
    · rw [if_pos (by simpa using hle)]
      rw [List.flatten_cons, List.filter_append,
        List.take_append_of_le_length hle]
    · rw [if_neg (by simpa using hle)]
      have hmin : min (row.filter (fMatch env expected)).length (3 - c) =
          (row.filter (fMatch env expected)).length := by omega
      rw [hmin]
      have hlt2 : c + (row.filter (fMatch env expected)).length < 3 := by omega
      rw [ih (c + (row.filter (fMatch env expected)).length) hlt2 hrest]
      rw [List.flatten_cons, List.filter_append, List.take_append_eq_append_take]
      have htk : (row.filter (fMatch env expected)).take (3 - c) =
          row.filter (fMatch env expected) := List.take_of_length_le (by omega)
      rw [htk]
      have harith : 3 - (c + (row.filter (fMatch env expected)).length) =
          3 - c - (row.filter (fMatch env expected)).length := by omega
      rw [harith]

/-- C3: when every cell of the grid classifies without error, one
episode of `solve_captcha` clicks exactly the first `min(k, 3)` matching
cells in raster order — the scan stops the instant the third click
lands, so a 4th matching cell later in scan order is never clicked. -/
theorem solve_captcha_clicks_min_three {Img : Type} (env : YoloEnv Img)
    (expected : String) (grid : List (List String))
    (hok : ∀ src ∈ grid.flatten, ∃ b, cellResult env expected src = Except.ok b) :
    solve_captcha env expected grid =
      Except.ok ((grid.flatten.filter (fMatch env expected)).take 3) ∧
    ((grid.flatten.filter (fMatch env expected)).take 3).length =
      min ((grid.flatten.filter (fMatch env expected)).length) 3 := by
  constructor
  · have h := solveRows_spec env expected grid 0 (by omega) hok
    simpa using h
  · simp [List.length_take, Nat.min_comm]

/-- C3 witness: a grid with 4 matching cells (the double always reports
class id 2, the id of `cat`): exactly the first 3 are clicked, in raster
order, and the 4th match is abandoned. -/
theorem solve_captcha_clicks_min_three_inst :
    solve_captcha yoloCat "cat" [["d,AAAA", "d,AAAB"], ["d,AAAC", "d,AAAD"]] =
      Except.ok ["d,AAAA", "d,AAAB", "d,AAAC"] := by
  have h := solve_captcha_clicks_min_three yoloCat "cat"
    [["d,AAAA", "d,AAAB"], ["d,AAAC", "d,AAAD"]] (by decide)
  exact h.1.trans (by rfl)

/-- Fact: takeWhile keeps a list all of whose elements satisfy the predicate. -/
theorem takeWhile_of_all {p : Char → Bool} :
    ∀ (xs : List Char), (∀ c ∈ xs, p c = true) → xs.takeWhile p = xs := by
  intro xs
  induction xs with
  | nil => intro _; rfl
  | cons x rest ih =>
    intro h
    have hx : p x = true := h x (by simp)
    simp only [List.takeWhile_cons, hx, if_true]
    rw [ih (fun c hc => h c (by simp [hc]))]

/-- Fact: takeWhile stops exactly at the first failing element. -/
theorem takeWhile_all_append {p : Char → Bool} :
    ∀ (xs : List Char) (y : Char) (ys : List Char),
    (∀ c ∈ xs, p c = true) → p y = false →
    (xs ++ y :: ys).takeWhile p = xs := by
  intro xs y ys
  induction xs with
  | nil =>
    intro _ hy
    simp [List.takeWhile_cons, hy]
  | cons x rest ih =>
    intro hall hy
    have hx : p x = true := hall x (by simp)
    simp only [List.cons_append, List.takeWhile_cons, hx, if_true]
    rw [ih (fun c hc => hall c (by simp [hc])) hy]

/-- Fact: chopNewline is the identity when the last character is not a
newline. -/
theorem chopNewline_no_newline (cs : List Char)
    (h : ∀ c, cs.getLast? = Option.some c → c ≠ '\n') :
    chopNewline cs = cs := by
  unfold chopNewline
  cases hlast : cs.getLast? with
  | none => simp
  | some c => simp [h c hlast]

/-- C8 amended: the proxy grammar accepted by `validate_proxy` has a
MANDATORY port — `http://<host>` alone is always rejected, while
`http://<host>:<port>` with a nonempty host over `[A-Za-z0-9.-]` and a
1-to-5-digit port is accepted — and an invalid proxy string makes `main`
return the `Invalid proxy format` message before any browser/session
activity, with process exit status 0 (not non-zero). -/
theorem validate_proxy_grammar :
    (∀ host : String, host.data ≠ [] → (∀ c ∈ host.data, hostChar c = true) →
       validate_proxy ("http://" ++ host) = false) ∧
    (∀ host port : String, host.data ≠ [] → (∀ c ∈ host.data, hostChar c = true) →
       port.data ≠ [] → port.data.length ≤ 5 → (∀ c ∈ port.data, c.isDigit = true) →
       validate_proxy ("http://" ++ host ++ ":" ++ port) = true) ∧
    (∀ (p : String) (sections : List Section) (inputs : List String),
       validate_proxy p = false →
       run_main (Option.some p) sections inputs =
         RunResult.proxyError ("Invalid proxy format: " ++ p ++ ".") ∧
       exitCode (run_main (Option.some p) sections inputs) = 0) := by
  have h7 : "http://".data = ['h', 't', 't', 'p', ':', '/', '/'] := by decide
  refine ⟨?_, ?_, ?_⟩
  · intro host hne hall
    obtain ⟨c, hc⟩ : ∃ c, host.data.getLast? = Option.some c := by
      cases hl : host.data.getLast? with
      | none => exact absurd (List.getLast?_eq_none_iff.mp hl) hne
      | some c => exact ⟨c, rfl⟩
    have hcnl : c ≠ '\n' := by
      intro hEq
      have hhc := hall c (List.mem_of_getLast?_eq_some hc)
      rw [hEq] at hhc
      exact absurd hhc (by decide)
    have hchop : chopNewline ("http://".data ++ host.data) = "http://".data ++ host.data := by
      apply chopNewline_no_newline
      intro c2 hc2
      rw [List.getLast?_append, hc, Option.or_some] at hc2
      injection hc2 with hc2
      rw [← hc2]
      exact hcnl
    unfold validate_proxy
    rw [String.data_append, hchop, h7]
    show matchHostPort host.data = false
    have htw := takeWhile_of_all host.data hall
    simp only [matchHostPort, htw, List.drop_length]
  · intro host port hne hall hpne hlen hdig
    have hcolon : ":".data = [':'] := by decide
    have hdata : ("http://" ++ host ++ ":" ++ port).data =
        "http://".data ++ (host.data ++ ':' :: port.data) := by
      simp [String.data_append, hcolon]
    obtain ⟨c, hc⟩ : ∃ c, port.data.getLast? = Option.some c := by
      cases hl : port.data.getLast? with
      | none => exact absurd (List.getLast?_eq_none_iff.mp hl) hpne
      | some c => exact ⟨c, rfl⟩
    have hcnl : c ≠ '\n' := by
      intro hEq
      have hhc := hdig c (List.mem_of_getLast?_eq_some hc)
      rw [hEq] at hhc
      exact absurd hhc (by decide)
    obtain ⟨q, qs, hq⟩ := List.exists_cons_of_ne_nil hpne
    have hchop : chopNewline ("http://".data ++ (host.data ++ ':' :: port.data)) =
        "http://".data ++ (host.data ++ ':' :: port.data) := by
      apply chopNewline_no_newline
      intro c2 hc2
      rw [List.getLast?_append, List.getLast?_append, hq,
        List.getLast?_cons_cons, ← hq, hc, Option.or_some, Option.or_some] at hc2
      injection hc2 with hc2
      rw [← hc2]
      exact hcnl
    unfold validate_proxy
    rw [hdata, hchop, h7]
    show matchHostPort (host.data ++ ':' :: port.data) = true
    have htw := takeWhile_all_append host.data ':' port.data hall (by decide)
    simp only [matchHostPort, htw, List.drop_left]
    simp [List.isEmpty_eq_false, hne, hpne, List.all_eq_true]
    exact ⟨hlen, hdig⟩
  · intro p sections inputs h
    constructor
    · simp [run_main, h]
    · simp [run_main, h, exitCode]

/-- C8 amended witness: a port-less proxy is rejected, a host:port proxy
is accepted, and an invalid proxy ends the run with the message and exit
status 0. -/
theorem validate_proxy_grammar_inst :
    validate_proxy ("http://" ++ "proxyhost") = false ∧
    validate_proxy ("http://" ++ "proxy.host" ++ ":" ++ "8080") = true ∧
    (run_main (Option.some "nonsense") [] [] =
       RunResult.proxyError ("Invalid proxy format: " ++ "nonsense" ++ ".") ∧
     exitCode (run_main (Option.some "nonsense") [] []) = 0) := by
  refine ⟨?_, ?_, ?_⟩
  · exact validate_proxy_grammar.1 "proxyhost" (by decide) (by decide)
  · exact validate_proxy_grammar.2.1 "proxy.host" "8080" (by decide) (by decide)
      (by decide) (by decide) (by decide)
  · exact validate_proxy_grammar.2.2 "nonsense" [] [] (by decide)
